import Mathlib

/-!
Verification development for the Personal-AI-Assistant repository.

The repository wires a supervisor agent and five specialist agents, each a
small graph that alternates a model call ("reasoning") with a tool-executing
node ("action") until the model's reply carries no function call.  This file
shallowly embeds the loop wiring of `SupervisorAgent.py` (shared verbatim by
every specialist module), the HTTP entry point of `main.py`, and the
individual capability functions of `EmailAgent.py`, `CalendarAgent.py` and
`ContactAgent.py`, and proves or refutes the frozen behavioural claims
about them.

Modelling conventions:
* a Python value that may be absent is an `Option`;
* a Python function that may raise is `Except PyErr _` (or `Except LoopErr _`
  for the graph runtime), with `.error` meaning "an exception propagates";
* `additional_kwargs` dictionaries are association lists `List (String × KwVal)`;
* the graph runtime's step budget (its recursion limit, which is not part of
  the repository's own sources) is explicit fuel.
-/

/-- A value stored in a model reply's `additional_kwargs` dictionary: either
the `function_call` payload (tool name and serialized arguments) or some
other, opaque entry. -/
inductive KwVal where
  | fnCall (name : String) (args : String)
  | otherVal
deriving DecidableEq, Repr

/-- One model reply: the text content plus the `additional_kwargs` dictionary,
as produced by `model.invoke` in `call_model` (SupervisorAgent.py:163-170). -/
structure AIResp where
  content : String
  kwargs : List (String × KwVal)
deriving DecidableEq, Repr

/-- A transcript entry, mirroring the langchain message classes used by the
repository: `SystemMessage`, `HumanMessage`, the model's `AIMessage` (with
`additional_kwargs`), and the tool node's result message.  `ref` is the
correlation reference of a tool result: the index, in the transcript, of the
assistant message whose function call it answers. -/
inductive Msg where
  | system (content : String)
  | human (content : String)
  | ai (resp : AIResp)
  | toolResult (content : String) (ref : Nat)
deriving DecidableEq, Repr

/-- `message.additional_kwargs`: non-assistant messages carry an empty
dictionary. -/
def Msg.additionalKwargs : Msg → List (String × KwVal)
  | .ai resp => resp.kwargs
  | _ => []

/-- `message.content`. -/
def Msg.contentOf : Msg → String
  | .system c => c
  | .human c => c
  | .ai resp => resp.content
  | .toolResult c _ => c

/-- `state["messages"][-1].additional_kwargs` (the state is never empty in a
run; the empty case defaults to the empty dictionary). -/
def lastKwargs (messages : List Msg) : List (String × KwVal) :=
  (messages.getLast?.map Msg.additionalKwargs).getD []

/-- `result["messages"][-1].content`. -/
def lastContent (messages : List Msg) : String :=
  (messages.getLast?.map Msg.contentOf).getD ""

/-- `"function_call" in additional_kwargs`: Python key membership. -/
def hasKey (kwargs : List (String × KwVal)) (k : String) : Bool :=
  kwargs.any (fun kv => kv.1 == k)

/-- `should_continue` (SupervisorAgent.py:172-173, and identically in every
specialist module): the loop continues exactly when the last message's
`additional_kwargs` has a `"function_call"` key. -/
def should_continue (messages : List Msg) : Bool :=
  hasKey (lastKwargs messages) "function_call"

/-- The `function_call` payload of a reply, when present and well formed. -/
def functionCallOf (resp : AIResp) : Option (String × String) :=
  match resp.kwargs.lookup "function_call" with
  | some (KwVal.fnCall n a) => some (n, a)
  | _ => none

/-- The model is an oracle from the current message list to a reply; the
repository's `call_model` sends `[SystemMessage(prompt)] + state["messages"]`
to the external model, which the oracle abstracts. -/
def Oracle : Type := List Msg → AIResp

/-- `call_model` (SupervisorAgent.py:163-170): invoke the model and append the
reply, via the `AgentState` reducer `lambda x, y: x + y`
(SupervisorAgent.py:33-34). -/
def call_model (oracle : Oracle) (messages : List Msg) : List Msg :=
  messages ++ [Msg.ai (oracle messages)]

/-- A tool registry: the graph's tool list keyed by tool name.  The supervisor
registers the five specialist runners (SupervisorAgent.py:24-31). -/
def Registry : Type := List (String × (String → String))

/-- Modelled from the spec: the failure text the Action Step materializes for
an action request naming a tool absent from the registry (the prebuilt tool
node's unknown-tool handling is not part of the repository's sources; the
spec requires a `failure_reason` mentioning the requested tool name). -/
def unknownToolText (name : String) : String :=
  "Error: " ++ name ++ " is not a valid tool, try one of the registered tools."

/-- The messages the action node appends for the current state: it reads the
function call of the last (assistant) message, resolves the tool by name, and
materializes one tool-result message whose `ref` is the index of that
assistant message.  Resolution failure becomes `unknownToolText`; a state
whose last message carries no well-formed function call appends nothing.
The execution itself is modelled from the spec's Action Step contract
(the prebuilt tool node is not part of the repository's sources); the tool
list and wiring are from SupervisorAgent.py:24-31,176-182. -/
def toolUpdate (registry : Registry) (messages : List Msg) : List Msg :=
  match messages.getLast? with
  | some (Msg.ai resp) =>
    match functionCallOf resp with
    | some (n, a) =>
      match registry.lookup n with
      | some f => [Msg.toolResult (f a) (messages.length - 1)]
      | none => [Msg.toolResult (unknownToolText n) (messages.length - 1)]
    | none => []
  | _ => []

/-- The action node (`tool_node`, SupervisorAgent.py:31): appends its update
to the state, via the `AgentState` reducer. -/
def tool_node (registry : Registry) (messages : List Msg) : List Msg :=
  messages ++ toolUpdate registry messages

/-- The text the Action Step materializes for a resolved or unresolved tool
call: the tool's output when the name resolves, the unknown-tool failure text
otherwise. -/
def execTool (registry : Registry) (n a : String) : String :=
  match registry.lookup n with
  | some f => f a
  | none => unknownToolText n

/-- The only abnormal exit of a loop run: the runtime's step budget is
exhausted (the spec's `LoopBudgetExceededError`; the graph runtime's
recursion limit, not part of the repository's sources). -/
inductive LoopErr where
  | budgetExceeded
deriving DecidableEq, Repr

/-- The compiled graph (SupervisorAgent.py:176-182, and identically in every
specialist module): entry point is the model node; `should_continue` routes
to the action node (edge back to the model node) or to `END`.  Fuel bounds
the number of reasoning/action alternations (modelled from the spec's
`max_iterations`); exhaustion is `LoopErr.budgetExceeded`.  On normal
termination it returns the final reply's text and the full transcript. -/
def runLoop (oracle : Oracle) (registry : Registry) :
    Nat → List Msg → Except LoopErr (String × List Msg)
  | 0, _ => Except.error LoopErr.budgetExceeded
  | fuel + 1, messages =>
    if should_continue (call_model oracle messages) then
      runLoop oracle registry fuel (tool_node registry (call_model oracle messages))
    else
      Except.ok ((oracle messages).content, call_model oracle messages)

/-- Number of assistant replies in a transcript: one per Reasoning Step. -/
def aiCount (messages : List Msg) : Nat :=
  messages.countP (fun m => match m with | Msg.ai _ => true | _ => false)

/-- Whether the message at index `r` is an action request: an assistant
message carrying a well-formed function call. -/
def isActionRequestAt (messages : List Msg) (r : Nat) : Bool :=
  match messages[r]? with
  | some (Msg.ai resp) => (functionCallOf resp).isSome
  | _ => false

/-- The chain condition on one message given the messages before it: a
tool-result message's `ref` must designate a strictly earlier index holding
an action request; other messages are unconstrained. -/
def checkMsg (pre : List Msg) : Msg → Bool
  | Msg.toolResult _ r => decide (r < pre.length) && isActionRequestAt pre r
  | _ => true

/-- Chain validity of the part of a transcript that follows `pre`: every
message satisfies `checkMsg` relative to the messages before it. -/
def chainOk (pre : List Msg) : List Msg → Bool
  | [] => true
  | m :: rest => checkMsg pre m && chainOk (pre ++ [m]) rest

/-- The transcript invariant of the data model: every tool-result message's
correlation reference resolves to exactly one preceding action request (the
reference is an index, so the designated message is unique). -/
def wellChained (messages : List Msg) : Bool :=
  chainOk [] messages

/-- One event of `app.astream` / `app.stream`: the node name paired with that
node's state update (the update is the list of newly appended messages, per
the `AgentState` reducer). -/
def StreamEvent : Type := String × List Msg

/-- The event sequence of a streamed run of the supervisor graph, plus the
exception (if any) that ends the stream: each reasoning step yields a
`"supervisor"` event carrying the model reply, each action step an
`"action"` event carrying the tool node's update; budget exhaustion raises
after the events already yielded.  Wiring from SupervisorAgent.py:176-182. -/
def streamRun (oracle : Oracle) (registry : Registry) :
    Nat → List Msg → List StreamEvent × Option LoopErr
  | 0, _ => ([], some LoopErr.budgetExceeded)
  | fuel + 1, messages =>
    if should_continue (call_model oracle messages) then
      (("supervisor", [Msg.ai (oracle messages)]) ::
        ("action", toolUpdate registry (call_model oracle messages)) ::
        (streamRun oracle registry fuel (tool_node registry (call_model oracle messages))).1,
       (streamRun oracle registry fuel (tool_node registry (call_model oracle messages))).2)
    else
      ([("supervisor", [Msg.ai (oracle messages)])], none)

/-- A server-sent event of the `/invoke` endpoint: the terminal payload is
either `{"content": text}` or `{"error": text}` (main.py:87-105). -/
inductive SseEvent where
  | contentEvt (s : String)
  | errorEvt (s : String)
deriving DecidableEq, Repr

/-- The scan inside `event_stream` (main.py:93-98): the first event whose key
is `"supervisor"` and whose update's last message has an empty
`additional_kwargs` dictionary yields its content and returns. -/
def scanEvents : List StreamEvent → Option String
  | [] => none
  | (k, v) :: rest =>
    if k == "supervisor" && (lastKwargs v).isEmpty then some (lastContent v)
    else scanEvents rest

/-- The text of the exception ending a stream, as interpolated into the error
payload (main.py:102). -/
def errText : LoopErr → String
  | LoopErr.budgetExceeded => "Recursion limit reached"

/-- `event_stream` (main.py:87-105): iterate the stream; on the first matching
supervisor event yield one content event and stop; if the stream raises
before a match, yield one error event; otherwise end with no event. -/
def event_stream (run : List StreamEvent × Option LoopErr) : List SseEvent :=
  match scanEvents run.1 with
  | some c => [SseEvent.contentEvt c]
  | none =>
    match run.2 with
    | some e =>
      [SseEvent.errorEvt ("An error occurred while processing your request: " ++ errText e)]
    | none => []

/-- The `.items()` view of the final state returned by `app.invoke`: a
single-key dictionary `{"messages": [...]}`. -/
def stateItems (final : List Msg) : List (String × List Msg) :=
  [("messages", final)]

/-- `run_email_agent` (EmailAgent.py:251-260): run the nested email-agent app
to completion on `[HumanMessage(query)]`; scan the result's items for the key
`"action"` (which the final state never contains, so this branch is dead) and
otherwise return the last message's content.  An exception from the nested
`app.invoke` is not caught and propagates. -/
def run_email_agent (oracle : Oracle) (registry : Registry) (fuel : Nat)
    (query : String) : Except LoopErr String :=
  match runLoop oracle registry fuel [Msg.human query] with
  | Except.ok (_, final) =>
    match (stateItems final).lookup "action" with
    | some v => Except.ok (lastContent v)
    | none => Except.ok (lastContent final)
  | Except.error e => Except.error e

/-- `run_contact_agent` (ContactAgent.py:158-163): run the nested contact-agent
app to completion on `[HumanMessage(query)]` and return the last message's
content.  An exception from the nested `app.invoke` is not caught and
propagates. -/
def run_contact_agent (oracle : Oracle) (registry : Registry) (fuel : Nat)
    (query : String) : Except LoopErr String :=
  match runLoop oracle registry fuel [Msg.human query] with
  | Except.ok (_, final) => Except.ok (lastContent final)
  | Except.error e => Except.error e

/-- An exception a Python capability call may raise: the Google client's
`HttpError` (which some of the repository's tools catch) or any other
exception class (never caught by them). -/
inductive PyErr where
  | httpError (msg : String)
  | otherError (msg : String)
deriving DecidableEq, Repr

/-- The Gmail send endpoint used by `send_email`:
`service.users().messages().send(...).execute()` (EmailAgent.py:52), keyed by
the recipient, subject and body that determine the MIME payload. -/
structure GmailSendSvc where
  send : String → String → String → Except PyErr String

/-- `send_email` (EmailAgent.py:43-53): build the message and send it.  The
body contains no try/except, so any exception from the service call
propagates out of the tool function. -/
def send_email (svc : GmailSendSvc) (toAddr subject body : String) :
    Except PyErr String :=
  match svc.send toAddr subject body with
  | Except.ok _ => Except.ok ("Email sent to " ++ toAddr ++ ".")
  | Except.error e => Except.error e

/-- The Calendar insert endpoint used by `create_calendar_event`:
`service.events().insert(...).execute()` (CalendarAgent.py:90), keyed by the
event fields, returning the created event's `htmlLink`. -/
structure CalInsertSvc where
  insert : String → String → String → Option String → List String → Except PyErr String

/-- `create_calendar_event` (CalendarAgent.py:78-93): build the event body and
insert it; `except HttpError` converts an `HttpError` into the text
`"An error occurred: ..."`, while any other exception propagates. -/
def create_calendar_event (svc : CalInsertSvc) (summary start_time end_time : String)
    (description : Option String) (attendees : List String) : Except PyErr String :=
  match svc.insert summary start_time end_time description attendees with
  | Except.ok link =>
    Except.ok ("Event created successfully. Summary: '" ++ summary ++ "'. Link: " ++ link)
  | Except.error (PyErr.httpError m) => Except.ok ("An error occurred: " ++ m)
  | Except.error (PyErr.otherError m) => Except.error (PyErr.otherError m)

/-- A message reference returned by the Gmail list endpoint
(`service.users().messages().list(...)`, EmailAgent.py:112). -/
structure GmailMsgRef where
  id : String
  threadId : String
deriving DecidableEq, Repr

/-- The data of one fetched message (`service.users().messages().get(...)`,
EmailAgent.py:119): its payload headers (name/value pairs, in order) and its
snippet. -/
structure GmailMsgData where
  headers : List (String × String)
  snippet : String
deriving DecidableEq, Repr

/-- The Gmail endpoints used by `get_emails`: the search (query to matching
message references) and the per-id fetch. -/
structure GmailListSvc where
  list : String → List GmailMsgRef
  get : String → GmailMsgData

/-- The header dictionary built by
`{h['name']: h['value'] for h in msg_data['payload']['headers']}`
(EmailAgent.py:120): a Python dict comprehension keeps the last occurrence of
a duplicated name, hence the reversed lookup. -/
def headerGet (headers : List (String × String)) (k d : String) : String :=
  (headers.reverse.lookup k).getD d

/-- One entry of the list `get_emails` returns (EmailAgent.py:121-127); the
Python dictionary keys are "id", "threadId", "subject", "from", "snippet"
("from" is a Lean keyword, hence the field name `fromAddr`). -/
structure EmailEntry where
  id : String
  threadId : String
  subject : String
  fromAddr : String
  snippet : String
deriving DecidableEq, Repr

/-- The entry built for one matching message reference (EmailAgent.py:119-127). -/
def entryOf (svc : GmailListSvc) (m : GmailMsgRef) : EmailEntry :=
  let d := svc.get m.id
  { id := m.id
    threadId := m.threadId
    subject := headerGet d.headers "Subject" ""
    fromAddr := headerGet d.headers "From" ""
    snippet := d.snippet }

/-- The union-shaped return value of `get_emails`: a plain string when nothing
matches, otherwise a list of entries. -/
inductive GetEmailsResult where
  | noEmails (s : String)
  | entries (l : List EmailEntry)
deriving DecidableEq, Repr

/-- `get_emails` (EmailAgent.py:108-128): search, return the fixed no-match
string on an empty result, else fetch and shape the first five matches. -/
def get_emails (svc : GmailListSvc) (query : String) : GetEmailsResult :=
  if (svc.list query).isEmpty then
    GetEmailsResult.noEmails "No emails found for that query."
  else
    GetEmailsResult.entries (((svc.list query).take 5).map (entryOf svc))

/-- One entry of the caller-supplied `history` array (main.py:48,74-84): a
JSON object whose "type" and "content" keys may each be absent. -/
structure HistEntry where
  type : Option String
  content : Option String
deriving DecidableEq, Repr

/-- A reconstructed langchain message handed to the supervisor app
(main.py:77-84): `HumanMessage` or `AIMessage`. -/
inductive BaseMsg where
  | human (c : String)
  | ai (c : String)
deriving DecidableEq, Repr

/-- The per-entry mapping the reconstruction loop applies: "human" and "ai"
entries become messages (content defaulting to the empty string), every other
entry is dropped. -/
def toMsg (e : HistEntry) : Option BaseMsg :=
  if e.type = some "human" then some (BaseMsg.human (e.content.getD ""))
  else if e.type = some "ai" then some (BaseMsg.ai (e.content.getD ""))
  else none

/-- The history reconstruction of `invoke_agent` (main.py:76-84): the for
loop appends a message per "human"/"ai" entry, then the new query is appended
as a human message. -/
def reconstruct_history (history : List HistEntry) (query : String) : List BaseMsg :=
  (history.foldl
    (fun acc e =>
      if e.type = some "human" then acc ++ [BaseMsg.human (e.content.getD "")]
      else if e.type = some "ai" then acc ++ [BaseMsg.ai (e.content.getD "")]
      else acc)
    []) ++ [BaseMsg.human query]

/-- One name record of a People API person (`person.get("names", ...)`,
ContactAgent.py:51-55). -/
structure PersonName where
  displayName : Option String
deriving DecidableEq, Repr

/-- One phone/email record of a person: its "value" key may be absent
(`p.get("value")`, ContactAgent.py:56-57). -/
structure PersonField where
  value : Option String
deriving DecidableEq, Repr

/-- A person returned by `service.people().connections().list(...)`
(ContactAgent.py:41-45); an absent key is the empty list. -/
structure Person where
  names : List PersonName
  phoneNumbers : List PersonField
  emailAddresses : List PersonField
deriving DecidableEq, Repr

/-- The record `get_contacts` builds per matching person
(ContactAgent.py:55-58); Python's `p.get("value")` can put `None` in the
phone/email lists, hence `Option String` elements. -/
structure ContactRecord where
  name : String
  phones : List (Option String)
  emails : List (Option String)
deriving DecidableEq, Repr

/-- Python's `str.lower()`, character by character (the names and queries in
scope are ASCII, where this agrees with Python). -/
def pyLower (s : String) : String :=
  String.mk (s.data.map Char.toLower)

/-- Whether `needle` occurs as a contiguous run inside `hay`. -/
def containsSub (needle : List Char) : List Char → Bool
  | [] => needle.isEmpty
  | c :: rest => needle.isPrefixOf (c :: rest) || containsSub needle rest

/-- Python's substring test `needle in hay`. -/
def pyIn (needle hay : String) : Bool :=
  containsSub needle.data hay.data

/-- The match test of the loop in `get_contacts` (ContactAgent.py:50-52):
some name record's display name contains the lowercased query,
case-insensitively. -/
def personMatches (lowerQuery : String) (person : Person) : Bool :=
  person.names.any (fun n => pyIn lowerQuery (pyLower (n.displayName.getD "")))

/-- The record built for a matching person (ContactAgent.py:55-58): the first
name record's display name (defaulting to "N/A"; the Python index `[0]` is
reachable only for matching persons, whose name list is non-empty), and the
raw phone/email values. -/
def recordOf (person : Person) : ContactRecord :=
  { name :=
      match person.names with
      | [] => "N/A"
      | n :: _ => n.displayName.getD "N/A"
    phones := person.phoneNumbers.map (fun p => p.value)
    emails := person.emailAddresses.map (fun e => e.value) }

/-- The `found_contacts` list accumulated by `get_contacts`
(ContactAgent.py:47-58), in connection order. -/
def foundOf (all_contacts : List Person) (query : String) : List ContactRecord :=
  all_contacts.filterMap (fun person =>
    if personMatches (pyLower query) person then some (recordOf person) else none)

/-- The union-shaped return value of `get_contacts`: a record list, the fixed
no-match string, or the caught-error text. -/
inductive GetContactsResult where
  | contacts (l : List ContactRecord)
  | noneFound (s : String)
  | errorText (s : String)
deriving DecidableEq, Repr

/-- The People endpoint used by `get_contacts`:
`service.people().connections().list(...).execute()` (ContactAgent.py:41-43). -/
structure PeopleSvc where
  listConnections : Except PyErr (List Person)

/-- `get_contacts` (ContactAgent.py:36-62): list the connections, filter by
display-name containment, and shape the result; `except HttpError` converts
an `HttpError` into `"An error occurred: ..."` text, while any other
exception propagates. -/
def get_contacts (svc : PeopleSvc) (query : String) :
    Except PyErr GetContactsResult :=
  match svc.listConnections with
  | Except.error (PyErr.httpError m) =>
    Except.ok (GetContactsResult.errorText ("An error occurred: " ++ m))
  | Except.error (PyErr.otherError m) => Except.error (PyErr.otherError m)
  | Except.ok all_contacts =>
    Except.ok
      (if (foundOf all_contacts query).isEmpty then
        GetContactsResult.noneFound "No contacts found matching that query."
      else GetContactsResult.contacts (foundOf all_contacts query))

/- Concrete instances used by witnesses and counterexamples. -/

/-- A model that always answers directly, with an empty kwargs dictionary. -/
def oracleDirect : Oracle := fun _ =>
  { content := "The weather is conceptually fine.", kwargs := [] }

/-- A model that always requests the same action (the runaway scenario). -/
def oracleLooping : Oracle := fun _ =>
  { content := "", kwargs := [("function_call", KwVal.fnCall "get_contacts" "Jane")] }

/-- A model whose final reply carries a non-`function_call` kwargs entry. -/
def oracleFinishKw : Oracle := fun _ =>
  { content := "Final answer", kwargs := [("finish_reason", KwVal.otherVal)] }

/-- A model that first requests the `echo` tool, then answers directly. -/
def oracleOnce : Oracle := fun messages =>
  if messages.length ≤ 1 then
    { content := "", kwargs := [("function_call", KwVal.fnCall "echo" "hi")] }
  else
    { content := "done", kwargs := [] }

/-- A model that requests a tool absent from every registry below. -/
def oracleUnknown : Oracle := fun _ =>
  { content := "", kwargs := [("function_call", KwVal.fnCall "frobnicate" "x")] }

/-- A one-tool registry. -/
def regEcho : Registry := [("echo", fun s => "echo: " ++ s)]

/-- A registry with the contact runner stubbed to an empty result. -/
def regContact : Registry := [("get_contacts", fun _ => "[]")]

/-- A Gmail send endpoint whose provider raises an `HttpError`. -/
def failGmail : GmailSendSvc :=
  { send := fun _ _ _ => Except.error (PyErr.httpError "503 Service Unavailable") }

/-- A Calendar insert endpoint whose provider raises an `HttpError`. -/
def failCalHttp : CalInsertSvc :=
  { insert := fun _ _ _ _ _ => Except.error (PyErr.httpError "404 Not Found") }

/-- A Gmail search returning two matches with fixed data. -/
def svcTwoEmails : GmailListSvc :=
  { list := fun _ => [{ id := "m1", threadId := "t1" }, { id := "m2", threadId := "t2" }]
    get := fun i =>
      { headers := [("Subject", "Hello " ++ i), ("From", "jane@example.com")]
        snippet := "snippet " ++ i } }

/-- A Gmail search returning no match. -/
def svcNoEmails : GmailListSvc :=
  { list := fun _ => [], get := fun _ => { headers := [], snippet := "" } }

/-- A single connection named Jane Doe. -/
def janeConnections : List Person :=
  [{ names := [{ displayName := some "Jane Doe" }]
     phoneNumbers := []
     emailAddresses := [{ value := some "jane@example.com" }] }]

/-- A People endpoint returning one connection named Jane Doe. -/
def peopleJane : PeopleSvc :=
  { listConnections := Except.ok janeConnections }

/-- A People endpoint whose provider raises an `HttpError`. -/
def peopleHttpFail : PeopleSvc :=
  { listConnections := Except.error (PyErr.httpError "429 Too Many Requests") }

/-- A People endpoint whose provider raises a non-`HttpError` exception. -/
def peopleNetFail : PeopleSvc :=
  { listConnections := Except.error (PyErr.otherError "Connection reset by peer") }

/-- A model reply requesting the unregistered tool `frobnicate`. -/
def aiFrob : AIResp :=
  { content := "", kwargs := [("function_call", KwVal.fnCall "frobnicate" "x")] }

/-- The final transcript of the run of `oracleOnce` over `regEcho` starting
from the single human message "q". -/
def finalOnce : List Msg :=
  [Msg.human "q",
   Msg.ai { content := "", kwargs := [("function_call", KwVal.fnCall "echo" "hi")] },
   Msg.toolResult "echo: hi" 1,
   Msg.ai { content := "done", kwargs := [] }]

/- Helper lemmas about the loop embedding. -/

theorem lastKwargs_concat (l : List Msg) (m : Msg) :
    lastKwargs (l ++ [m]) = m.additionalKwargs := by
  simp [lastKwargs, List.getLast?_concat]

theorem lastContent_concat (l : List Msg) (m : Msg) :
    lastContent (l ++ [m]) = m.contentOf := by
  simp [lastContent, List.getLast?_concat]

theorem should_continue_concat (l : List Msg) (resp : AIResp) :
    should_continue (l ++ [Msg.ai resp]) = hasKey resp.kwargs "function_call" := by
  rw [should_continue, lastKwargs_concat]; rfl

theorem hasKey_eq_isSome_lookup (kwargs : List (String × KwVal)) (k : String) :
    hasKey kwargs k = (kwargs.lookup k).isSome := by
  induction kwargs with
  | nil => rfl
  | cons kv t ih =>
    obtain ⟨k1, v⟩ := kv
    by_cases h : k1 = k
    · subst h; simp [hasKey, List.lookup]
    · have h1 : (k1 == k) = false := by simp [h]
      have h2 : (k == k1) = false := by simp [Ne.symm h]
      simp only [hasKey, List.any_cons, List.lookup, h1, h2, Bool.false_or, if_false]
      exact ih

theorem hasKey_of_functionCall (resp : AIResp) (n a : String)
    (h : functionCallOf resp = some (n, a)) :
    hasKey resp.kwargs "function_call" = true := by
  rw [hasKey_eq_isSome_lookup]
  unfold functionCallOf at h
  cases hl : resp.kwargs.lookup "function_call" with
  | none => rw [hl] at h; simp at h
  | some v => simp

theorem hasKey_ne_empty (kwargs : List (String × KwVal)) (k : String)
    (h : hasKey kwargs k = true) : kwargs.isEmpty = false := by
  cases kwargs with
  | nil => simp [hasKey] at h
  | cons kv t => rfl

theorem toolUpdate_concat (registry : Registry) (l : List Msg) (resp : AIResp) :
    toolUpdate registry (l ++ [Msg.ai resp]) =
      (match functionCallOf resp with
       | some (n, a) =>
         match registry.lookup n with
         | some f => [Msg.toolResult (f a) l.length]
         | none => [Msg.toolResult (unknownToolText n) l.length]
       | none => []) := by
  unfold toolUpdate
  rw [List.getLast?_concat]
  have hlen : (l ++ [Msg.ai resp]).length - 1 = l.length := by simp
  rw [hlen]

theorem toolUpdate_eq (registry : Registry) (messages : List Msg) :
    toolUpdate registry messages = [] ∨
      ∃ c r, toolUpdate registry messages = [Msg.toolResult c r] := by
  unfold toolUpdate
  split
  · split
    · split
      · exact Or.inr ⟨_, _, rfl⟩
      · exact Or.inr ⟨_, _, rfl⟩
    · exact Or.inl rfl
  · exact Or.inl rfl

theorem aiCount_append (l t : List Msg) : aiCount (l ++ t) = aiCount l + aiCount t :=
  List.countP_append _ _ _

theorem aiCount_toolUpdate (registry : Registry) (messages : List Msg) :
    aiCount (toolUpdate registry messages) = 0 := by
  rcases toolUpdate_eq registry messages with h | ⟨c, r, h⟩ <;> rw [h] <;> rfl

theorem aiCount_tool_node (registry : Registry) (messages : List Msg) :
    aiCount (tool_node registry messages) = aiCount messages := by
  rw [tool_node, aiCount_append, aiCount_toolUpdate, Nat.add_zero]

theorem aiCount_call_model (oracle : Oracle) (messages : List Msg) :
    aiCount (call_model oracle messages) = aiCount messages + 1 := by
  rw [call_model, aiCount_append]; rfl

theorem chainOk_append (xs ys pre : List Msg) :
    chainOk pre (xs ++ ys) = (chainOk pre xs && chainOk (pre ++ xs) ys) := by
  induction xs generalizing pre with
  | nil => simp [chainOk]
  | cons m t ih =>
    show (checkMsg pre m && chainOk (pre ++ [m]) (t ++ ys)) =
      (chainOk pre (m :: t) && chainOk (pre ++ m :: t) ys)
    rw [ih]
    show _ = ((checkMsg pre m && chainOk (pre ++ [m]) t) && chainOk (pre ++ m :: t) ys)
    rw [Bool.and_assoc]
    have hpp : pre ++ [m] ++ t = pre ++ m :: t := by simp
    rw [hpp]

theorem chainOk_single (pre : List Msg) (m : Msg) :
    chainOk pre [m] = checkMsg pre m := by
  simp [chainOk]

theorem wellChained_concat (messages : List Msg) (m : Msg) :
    wellChained (messages ++ [m]) = (wellChained messages && checkMsg messages m) := by
  rw [wellChained, chainOk_append, chainOk_single]; rfl

theorem isActionRequestAt_concat_ai (l : List Msg) (resp : AIResp) :
    isActionRequestAt (l ++ [Msg.ai resp]) l.length = (functionCallOf resp).isSome := by
  unfold isActionRequestAt
  rw [List.getElem?_append_right (le_refl _)]
  simp

theorem checkMsg_toolResult_concat (l : List Msg) (resp : AIResp) (c : String)
    (hf : (functionCallOf resp).isSome = true) :
    checkMsg (l ++ [Msg.ai resp]) (Msg.toolResult c l.length) = true := by
  show (decide (l.length < (l ++ [Msg.ai resp]).length) &&
    isActionRequestAt (l ++ [Msg.ai resp]) l.length) = true
  rw [isActionRequestAt_concat_ai, hf]
  simp

theorem toolUpdate_concat_some (registry : Registry) (l : List Msg) (resp : AIResp)
    (n a : String) (hf : functionCallOf resp = some (n, a)) :
    toolUpdate registry (l ++ [Msg.ai resp]) =
      [Msg.toolResult (execTool registry n a) l.length] := by
  rw [toolUpdate_concat, hf]
  show (match registry.lookup n with
        | some f => [Msg.toolResult (f a) l.length]
        | none => [Msg.toolResult (unknownToolText n) l.length]) =
      [Msg.toolResult (execTool registry n a) l.length]
  unfold execTool
  cases registry.lookup n <;> rfl

theorem toolUpdate_concat_none (registry : Registry) (l : List Msg) (resp : AIResp)
    (hf : functionCallOf resp = none) :
    toolUpdate registry (l ++ [Msg.ai resp]) = [] := by
  rw [toolUpdate_concat, hf]

theorem wellChained_call_model (oracle : Oracle) (messages : List Msg)
    (h : wellChained messages = true) :
    wellChained (call_model oracle messages) = true := by
  rw [call_model, wellChained_concat, h]; rfl

theorem wellChained_tool_node_concat (registry : Registry) (l : List Msg) (resp : AIResp)
    (h : wellChained (l ++ [Msg.ai resp]) = true) :
    wellChained (tool_node registry (l ++ [Msg.ai resp])) = true := by
  cases hf : functionCallOf resp with
  | none =>
    rw [tool_node, toolUpdate_concat_none registry l resp hf, List.append_nil]
    exact h
  | some p =>
    obtain ⟨n, a⟩ := p
    rw [tool_node, toolUpdate_concat_some registry l resp n a hf, wellChained_concat, h,
      checkMsg_toolResult_concat l resp _ (by rw [hf]; rfl)]
    rfl

/-- C1: every Agent Loop execution (supervisor or specialist) either reaches
DONE within the step budget — returning a final answer whose transcript
contains at most `fuel` additional Reasoning Steps — or terminates with the
budget-exceeded error as a value surfaced to the caller; no execution runs
unboundedly (the loop function is total). -/
theorem loop_terminates_within_budget (oracle : Oracle) (registry : Registry)
    (fuel : Nat) (messages : List Msg) :
    (∃ ans final, runLoop oracle registry fuel messages = Except.ok (ans, final) ∧
      aiCount final ≤ aiCount messages + fuel) ∨
    runLoop oracle registry fuel messages = Except.error LoopErr.budgetExceeded := by
  induction fuel generalizing messages with
  | zero => exact Or.inr rfl
  | succ n ih =>
    by_cases hc : should_continue (call_model oracle messages) = true
    · have hrw : runLoop oracle registry (n + 1) messages =
          runLoop oracle registry n (tool_node registry (call_model oracle messages)) := by
        rw [runLoop, if_pos hc]
      rcases ih (tool_node registry (call_model oracle messages)) with
        ⟨ans, final, hok, hb⟩ | herr
      · refine Or.inl ⟨ans, final, by rw [hrw]; exact hok, ?_⟩
        rw [aiCount_tool_node, aiCount_call_model] at hb
        omega
      · exact Or.inr (by rw [hrw]; exact herr)
    · refine Or.inl ⟨(oracle messages).content, call_model oracle messages, ?_, ?_⟩
      · rw [runLoop, if_neg hc]
      · rw [aiCount_call_model]; omega

/-- C3: the Agent Loop is a strict sequential alternation.  When the
Reasoning Step's reply carries no function-call entry the loop stops at once,
returning that reply's text with only the reply appended (no Action Step
runs); when the reply carries an action request, exactly one tool-result
message is appended — the action's result, correlated to the request at
index `messages.length` — before control returns to the Reasoning Step. -/
theorem loop_strict_alternation (oracle : Oracle) (registry : Registry)
    (fuel : Nat) (messages : List Msg) :
    (should_continue (call_model oracle messages) = false →
      runLoop oracle registry (fuel + 1) messages =
        Except.ok ((oracle messages).content, messages ++ [Msg.ai (oracle messages)])) ∧
    (∀ n a, functionCallOf (oracle messages) = some (n, a) →
      runLoop oracle registry (fuel + 1) messages =
        runLoop oracle registry fuel
          (messages ++ [Msg.ai (oracle messages),
            Msg.toolResult (execTool registry n a) messages.length])) := by
  constructor
  · intro h
    have h' : ¬should_continue (call_model oracle messages) = true := by simp [h]
    rw [runLoop, if_neg h']
    rfl
  · intro n a hf
    have hsc : should_continue (call_model oracle messages) = true := by
      rw [call_model, should_continue_concat]
      exact hasKey_of_functionCall _ n a hf
    rw [runLoop, if_pos hsc]
    congr 1
    rw [tool_node, call_model,
      toolUpdate_concat_some registry messages (oracle messages) n a hf,
      List.append_assoc]
    rfl

/-- Witness for C3 at concrete inputs: a direct-answer model terminates in one
step with no Action Step, and a tool-requesting model gets exactly one
appended tool result with the correlation index 1. -/
theorem loop_strict_alternation_witness :
    runLoop oracleDirect regEcho 1 [Msg.human "What is the weather like conceptually?"] =
      Except.ok ("The weather is conceptually fine.",
        [Msg.human "What is the weather like conceptually?",
         Msg.ai { content := "The weather is conceptually fine.", kwargs := [] }]) ∧
    runLoop oracleOnce regEcho 3 [Msg.human "q"] =
      runLoop oracleOnce regEcho 2
        [Msg.human "q",
         Msg.ai { content := "", kwargs := [("function_call", KwVal.fnCall "echo" "hi")] },
         Msg.toolResult (execTool regEcho "echo" "hi") 1] :=
  ⟨(loop_strict_alternation oracleDirect regEcho 0
      [Msg.human "What is the weather like conceptually?"]).1 rfl,
   (loop_strict_alternation oracleOnce regEcho 2 [Msg.human "q"]).2 "echo" "hi" rfl⟩

/-- C6: the transcript is append-only under every loop transition — the
Reasoning Step (`call_model`) and the Action Step (`tool_node`) both extend
the message list, leaving the existing entries untouched — and a complete
run preserves chain validity: starting from a well-chained transcript, every
tool-result message of the final transcript has a correlation reference
resolving to exactly one preceding action-request message (the reference is
an index, which designates a unique entry). -/
theorem transcript_append_only (oracle : Oracle) (registry : Registry)
    (fuel : Nat) (messages : List Msg) (ans : String) (final : List Msg) :
    messages <+: call_model oracle messages ∧
    messages <+: tool_node registry messages ∧
    (runLoop oracle registry fuel messages = Except.ok (ans, final) →
      messages <+: final ∧ (wellChained messages = true → wellChained final = true)) := by
  refine ⟨List.prefix_append _ _, List.prefix_append _ _, ?_⟩
  induction fuel generalizing messages with
  | zero => intro h; simp [runLoop] at h
  | succ n ih =>
    intro h
    by_cases hc : should_continue (call_model oracle messages) = true
    · rw [runLoop, if_pos hc] at h
      obtain ⟨hp, hw⟩ := ih _ h
      constructor
      · exact ((List.prefix_append messages [Msg.ai (oracle messages)]).trans
          (List.prefix_append _ _)).trans hp
      · intro hwm
        exact hw (wellChained_tool_node_concat registry messages (oracle messages)
          (wellChained_call_model oracle messages hwm))
    · rw [runLoop, if_neg hc] at h
      rw [Except.ok.injEq, Prod.mk.injEq] at h
      obtain ⟨-, h2⟩ := h
      constructor
      · rw [← h2]; exact List.prefix_append _ _
      · intro hwm; rw [← h2]; exact wellChained_call_model oracle messages hwm

/-- Witness for C6: a complete two-step run (one tool call, then a direct
answer) from the single human message "q"; the initial transcript is a prefix
of the final one, and the final one is well chained. -/
theorem transcript_append_only_witness :
    [Msg.human "q"] <+: finalOnce ∧ wellChained finalOnce = true :=
  have h := (transcript_append_only oracleOnce regEcho 3 [Msg.human "q"]
    "done" finalOnce).2.2 rfl
  ⟨h.1, h.2 rfl⟩

/-- C5: for an action request whose tool name is absent from the registry,
the Action Step appends exactly one failed tool-result message whose text
mentions the requested tool name (it is a substring), correlated to the
request; being a total function, it raises nothing past its boundary. -/
theorem unknown_tool_failed_result (registry : Registry) (l : List Msg)
    (resp : AIResp) (n a : String)
    (hf : functionCallOf resp = some (n, a)) (hr : registry.lookup n = none) :
    tool_node registry (l ++ [Msg.ai resp]) =
      (l ++ [Msg.ai resp]) ++ [Msg.toolResult (unknownToolText n) l.length] ∧
    ∃ pre suf, unknownToolText n = pre ++ n ++ suf := by
  constructor
  · rw [tool_node, toolUpdate_concat_some registry l resp n a hf,
      show execTool registry n a = unknownToolText n from by unfold execTool; rw [hr]]
  · exact ⟨"Error: ", " is not a valid tool, try one of the registered tools.", rfl⟩

/-- Witness for C5: the tool `frobnicate` is absent from the one-tool
registry; the Action Step appends the failure message naming it. -/
theorem unknown_tool_failed_result_witness :
    tool_node regEcho ([Msg.human "q"] ++ [Msg.ai aiFrob]) =
      ([Msg.human "q"] ++ [Msg.ai aiFrob]) ++
        [Msg.toolResult (unknownToolText "frobnicate") 1] ∧
    ∃ pre suf, unknownToolText "frobnicate" = pre ++ "frobnicate" ++ suf :=
  unknown_tool_failed_result regEcho [Msg.human "q"] aiFrob "frobnicate" "x" rfl rfl

/-- Counterexample to C2: `send_email` contains no try/except, so even a
plain provider `HttpError` — the canonical capability failure — propagates
out of the capability function as an exception instead of being caught and
converted into a failed result with a `failure_reason`. -/
theorem send_email_uncaught_counterexample :
    send_email failGmail "a@b.example" "Hi" "Body" =
      Except.error (PyErr.httpError "503 Service Unavailable") := rfl

/-- C2 as amended: the calendar capability catches a provider `HttpError` and
converts it into the text "An error occurred: ..." (and analogously the
contact tools), but the email capabilities catch nothing — any provider
exception propagates out of `send_email` unchanged. -/
theorem capability_error_handling_split (gsvc : GmailSendSvc) (csvc : CalInsertSvc)
    (toAddr subject body summary st et : String) (d : Option String)
    (att : List String) (e : PyErr) (m : String) :
    (gsvc.send toAddr subject body = Except.error e →
      send_email gsvc toAddr subject body = Except.error e) ∧
    (csvc.insert summary st et d att = Except.error (PyErr.httpError m) →
      create_calendar_event csvc summary st et d att =
        Except.ok ("An error occurred: " ++ m)) := by
  constructor
  · intro h
    unfold send_email
    rw [h]
  · intro h
    unfold create_calendar_event
    rw [h]

/-- Witness for the amended C2 at concrete failing providers. -/
theorem capability_error_handling_split_witness :
    send_email failGmail "x@y.example" "S" "B" =
      Except.error (PyErr.httpError "503 Service Unavailable") ∧
    create_calendar_event failCalHttp "Sync" "2025-01-01T10:00:00" "2025-01-01T11:00:00"
        none [] = Except.ok ("An error occurred: " ++ "404 Not Found") :=
  ⟨(capability_error_handling_split failGmail failCalHttp "x@y.example" "S" "B"
      "Sync" "2025-01-01T10:00:00" "2025-01-01T11:00:00" none []
      (PyErr.httpError "503 Service Unavailable") "404 Not Found").1 rfl,
   (capability_error_handling_split failGmail failCalHttp "x@y.example" "S" "B"
      "Sync" "2025-01-01T10:00:00" "2025-01-01T11:00:00" none []
      (PyErr.httpError "503 Service Unavailable") "404 Not Found").2 rfl⟩

/-- Counterexample to C4: `run_contact_agent` has no try/except, so when the
nested loop raises (here: budget exhaustion with a model that keeps
requesting actions), the invocation propagates a structured failure across
the supervisor boundary instead of returning descriptive text. -/
theorem run_contact_agent_propagates_counterexample :
    run_contact_agent oracleLooping regContact 3 "find Jane" =
      Except.error LoopErr.budgetExceeded := rfl

/-- C4 as amended: when the nested loop completes normally, the
specialist-as-tool invocations return the final message's text (the dead
"action" branch of `run_email_agent` never fires, since the final state's
only key is "messages"); an internal loop exception is not wrapped into text
and propagates across the supervisor boundary. -/
theorem specialist_text_on_completion (oracle : Oracle) (registry : Registry)
    (fuel : Nat) (query ans : String) (final : List Msg)
    (h : runLoop oracle registry fuel [Msg.human query] = Except.ok (ans, final)) :
    run_email_agent oracle registry fuel query = Except.ok (lastContent final) ∧
    run_contact_agent oracle registry fuel query = Except.ok (lastContent final) := by
  constructor
  · unfold run_email_agent
    rw [h]
    rfl
  · unfold run_contact_agent
    rw [h]

/-- Witness for the amended C4 at a concrete direct-answer model. -/
theorem specialist_text_on_completion_witness :
    run_email_agent oracleDirect regEcho 1 "hello" =
      Except.ok (lastContent [Msg.human "hello",
        Msg.ai { content := "The weather is conceptually fine.", kwargs := [] }]) ∧
    run_contact_agent oracleDirect regEcho 1 "hello" =
      Except.ok (lastContent [Msg.human "hello",
        Msg.ai { content := "The weather is conceptually fine.", kwargs := [] }]) :=
  specialist_text_on_completion oracleDirect regEcho 1 "hello"
    "The weather is conceptually fine."
    [Msg.human "hello",
     Msg.ai { content := "The weather is conceptually fine.", kwargs := [] }] rfl

/-- Counterexample to C7: when the supervisor's final reply carries a
non-empty `additional_kwargs` dictionary without a `"function_call"` entry,
`should_continue` ends the graph but the stream scan's emptiness test never
matches, so the response stream terminates with zero terminal events — not
with exactly one `content` or `error` event as claimed. -/
theorem event_stream_zero_events_counterexample :
    event_stream (streamRun oracleFinishKw [] 5 [Msg.human "hi"]) = [] := rfl

theorem scanEvents_cons (k : String) (v : List Msg) (rest : List StreamEvent) :
    scanEvents ((k, v) :: rest) =
      if k == "supervisor" && (lastKwargs v).isEmpty then some (lastContent v)
      else scanEvents rest := rfl

theorem event_stream_len (run : List StreamEvent × Option LoopErr) :
    (event_stream run).length ≤ 1 := by
  unfold event_stream
  split
  · simp
  · split
    · simp
    · simp

theorem scanEvents_streamRun_err (oracle : Oracle) (registry : Registry) :
    ∀ (fuel : Nat) (messages : List Msg),
      (streamRun oracle registry fuel messages).2.isSome = true →
      scanEvents (streamRun oracle registry fuel messages).1 = none := by
  intro fuel
  induction fuel with
  | zero => intro messages _; rfl
  | succ n ih =>
    intro messages h
    by_cases hc : should_continue (call_model oracle messages) = true
    · have hrw : streamRun oracle registry (n + 1) messages =
          (("supervisor", [Msg.ai (oracle messages)]) ::
            ("action", toolUpdate registry (call_model oracle messages)) ::
            (streamRun oracle registry n
              (tool_node registry (call_model oracle messages))).1,
           (streamRun oracle registry n
             (tool_node registry (call_model oracle messages))).2) := by
        rw [streamRun, if_pos hc]
      rw [hrw] at h ⊢
      have hkw : ((oracle messages).kwargs).isEmpty = false := by
        apply hasKey_ne_empty _ "function_call"
        rw [call_model, should_continue_concat] at hc
        exact hc
      have hl : lastKwargs [Msg.ai (oracle messages)] = (oracle messages).kwargs := rfl
      have hne : ("action" == "supervisor") = false := rfl
      show scanEvents (("supervisor", [Msg.ai (oracle messages)]) ::
          ("action", toolUpdate registry (call_model oracle messages)) ::
          (streamRun oracle registry n
            (tool_node registry (call_model oracle messages))).1) = none
      rw [scanEvents_cons, if_neg (by rw [hl]; simp [hkw]),
        scanEvents_cons, if_neg (by rw [hne]; simp)]
      exact ih _ h
    · have hrw : streamRun oracle registry (n + 1) messages =
          ([("supervisor", [Msg.ai (oracle messages)])], none) := by
        rw [streamRun, if_neg hc]
      rw [hrw] at h
      simp at h

theorem event_stream_pair (evs : List StreamEvent) (err : Option LoopErr) :
    event_stream (evs, err) =
      match scanEvents evs with
      | some c => [SseEvent.contentEvt c]
      | none =>
        match err with
        | some e =>
          [SseEvent.errorEvt
            ("An error occurred while processing your request: " ++ errText e)]
        | none => [] := rfl

theorem event_stream_skip (k : String) (v : List Msg) (evs : List StreamEvent)
    (err : Option LoopErr)
    (hm : (k == "supervisor" && (lastKwargs v).isEmpty) = false) :
    event_stream ((k, v) :: evs, err) = event_stream (evs, err) := by
  rw [event_stream_pair, event_stream_pair, scanEvents_cons, if_neg (by simp [hm])]

theorem event_stream_streamRun_ok (oracle : Oracle) (registry : Registry) :
    ∀ (fuel : Nat) (messages : List Msg) (ans : String) (final : List Msg),
      runLoop oracle registry fuel messages = Except.ok (ans, final) →
      lastKwargs final = [] →
      event_stream (streamRun oracle registry fuel messages) =
        [SseEvent.contentEvt ans] := by
  intro fuel
  induction fuel with
  | zero => intro messages ans final h _; simp [runLoop] at h
  | succ n ih =>
    intro messages ans final h hk
    by_cases hc : should_continue (call_model oracle messages) = true
    · rw [runLoop, if_pos hc] at h
      have hrw : streamRun oracle registry (n + 1) messages =
          (("supervisor", [Msg.ai (oracle messages)]) ::
            ("action", toolUpdate registry (call_model oracle messages)) ::
            (streamRun oracle registry n
              (tool_node registry (call_model oracle messages))).1,
           (streamRun oracle registry n
             (tool_node registry (call_model oracle messages))).2) := by
        rw [streamRun, if_pos hc]
      have hkw : ((oracle messages).kwargs).isEmpty = false := by
        apply hasKey_ne_empty _ "function_call"
        rw [call_model, should_continue_concat] at hc
        exact hc
      have hl : lastKwargs [Msg.ai (oracle messages)] = (oracle messages).kwargs := rfl
      have hne : ("action" == "supervisor") = false := rfl
      rw [hrw, event_stream_skip _ _ _ _ (by rw [hl]; simp [hkw]),
        event_stream_skip _ _ _ _ (by rw [hne]; simp)]
      exact ih (tool_node registry (call_model oracle messages)) ans final h hk
    · rw [runLoop, if_neg hc] at h
      rw [Except.ok.injEq, Prod.mk.injEq] at h
      obtain ⟨h1, h2⟩ := h
      subst h2
      subst h1
      have hkq : (oracle messages).kwargs = [] := by
        rw [call_model, lastKwargs_concat] at hk
        exact hk
      have hrw2 : streamRun oracle registry (n + 1) messages =
          ([("supervisor", [Msg.ai (oracle messages)])], none) := by
        rw [streamRun, if_neg hc]
      rw [hrw2, event_stream_pair, scanEvents_cons,
        if_pos (show ("supervisor" == "supervisor" &&
            (lastKwargs [Msg.ai (oracle messages)]).isEmpty) = true by
          rw [show lastKwargs [Msg.ai (oracle messages)] = (oracle messages).kwargs
            from rfl, hkq]
          rfl)]
      rfl

/-- C7 as amended: the `/invoke` response stream terminates with at most one
terminal event (never several); when the underlying run raises, it terminates
with exactly one `error` event; and when the run completes with a final
supervisor reply whose `additional_kwargs` dictionary is empty, it terminates
with exactly one `content` event carrying the final answer.  Zero terminal
events remain possible (see the counterexample), so "exactly one" does not
hold in general. -/
theorem event_stream_at_most_one (oracle : Oracle) (registry : Registry)
    (fuel : Nat) (messages : List Msg) :
    (event_stream (streamRun oracle registry fuel messages)).length ≤ 1 ∧
    ((streamRun oracle registry fuel messages).2.isSome = true →
      ∃ s, event_stream (streamRun oracle registry fuel messages) =
        [SseEvent.errorEvt s]) ∧
    (∀ ans final, runLoop oracle registry fuel messages = Except.ok (ans, final) →
      lastKwargs final = [] →
      event_stream (streamRun oracle registry fuel messages) =
        [SseEvent.contentEvt ans]) := by
  refine ⟨event_stream_len _, ?_, ?_⟩
  · intro h
    unfold event_stream
    rw [scanEvents_streamRun_err oracle registry fuel messages h]
    obtain ⟨e, he⟩ := Option.isSome_iff_exists.mp h
    rw [he]
    exact ⟨_, rfl⟩
  · intro ans final h hk
    exact event_stream_streamRun_ok oracle registry fuel messages ans final h hk

/-- Witness for the amended C7: a runaway model exhausts the budget of 2 and
the stream ends with exactly one error event, while a direct-answer model
with empty reply kwargs ends the stream with exactly one content event. -/
theorem event_stream_at_most_one_witness :
    (event_stream (streamRun oracleLooping regContact 2 [Msg.human "x"])).length ≤ 1 ∧
    (∃ s, event_stream (streamRun oracleLooping regContact 2 [Msg.human "x"]) =
      [SseEvent.errorEvt s]) ∧
    event_stream (streamRun oracleDirect regEcho 1 [Msg.human "hi"]) =
      [SseEvent.contentEvt "The weather is conceptually fine."] :=
  ⟨(event_stream_at_most_one oracleLooping regContact 2 [Msg.human "x"]).1,
   (event_stream_at_most_one oracleLooping regContact 2 [Msg.human "x"]).2.1 rfl,
   (event_stream_at_most_one oracleDirect regEcho 1 [Msg.human "hi"]).2.2
     "The weather is conceptually fine."
     [Msg.human "hi",
      Msg.ai { content := "The weather is conceptually fine.", kwargs := [] }]
     rfl rfl⟩

/-- C8: when the search matches at least one message, `get_emails` returns
the entry list built from the first five matches — hence at most 5 entries,
each a record with the id, threadId, subject, from and snippet fields; when
nothing matches it returns exactly the string
"No emails found for that query.". -/
theorem get_emails_shape (svc : GmailListSvc) (query : String) :
    ((svc.list query).isEmpty = false →
      get_emails svc query =
        GetEmailsResult.entries (((svc.list query).take 5).map (entryOf svc)) ∧
      (((svc.list query).take 5).map (entryOf svc)).length ≤ 5) ∧
    ((svc.list query).isEmpty = true →
      get_emails svc query =
        GetEmailsResult.noEmails "No emails found for that query.") := by
  constructor
  · intro h
    constructor
    · unfold get_emails
      rw [if_neg (by simp [h])]
    · rw [List.length_map, List.length_take]
      exact Nat.min_le_left _ _
  · intro h
    unfold get_emails
    rw [if_pos h]

/-- Witness for C8: a two-match search yields the shaped entry list; an empty
search yields the fixed string. -/
theorem get_emails_shape_witness :
    (get_emails svcTwoEmails "q" =
        GetEmailsResult.entries
          (((svcTwoEmails.list "q").take 5).map (entryOf svcTwoEmails)) ∧
      (((svcTwoEmails.list "q").take 5).map (entryOf svcTwoEmails)).length ≤ 5) ∧
    get_emails svcNoEmails "q" =
      GetEmailsResult.noEmails "No emails found for that query." :=
  ⟨(get_emails_shape svcTwoEmails "q").1 rfl, (get_emails_shape svcNoEmails "q").2 rfl⟩

theorem foldl_history_filterMap (history : List HistEntry) : ∀ acc : List BaseMsg,
    history.foldl (fun acc e =>
      if e.type = some "human" then acc ++ [BaseMsg.human (e.content.getD "")]
      else if e.type = some "ai" then acc ++ [BaseMsg.ai (e.content.getD "")]
      else acc) acc = acc ++ history.filterMap toMsg := by
  induction history with
  | nil => intro acc; simp
  | cons e t ih =>
    intro acc
    by_cases h1 : e.type = some "human"
    · simp [List.foldl_cons, h1, ih, toMsg, List.filterMap_cons]
    · by_cases h2 : e.type = some "ai"
      · simp [List.foldl_cons, h1, h2, ih, toMsg, List.filterMap_cons]
      · simp [List.foldl_cons, h1, h2, ih, toMsg, List.filterMap_cons]

/-- C9: the history reconstruction of the `/invoke` endpoint keeps exactly
the "human" and "ai" entries, in their original order (a `filterMap` over
the history), silently dropping every other entry, and appends the new query
as a final human message. -/
theorem reconstruct_history_drops_unknown (history : List HistEntry) (query : String) :
    reconstruct_history history query =
      history.filterMap toMsg ++ [BaseMsg.human query] := by
  unfold reconstruct_history
  rw [foldl_history_filterMap history []]
  rfl

/-- Counterexample to C10: `get_contacts` catches only `HttpError`; a
non-`HttpError` provider exception (here a network error) propagates, so the
function does not always return one of the three claimed shapes without
raising. -/
theorem get_contacts_raises_counterexample :
    get_contacts peopleNetFail "Jane" =
      Except.error (PyErr.otherError "Connection reset by peer") := rfl

/-- C10 as amended: whenever the provider call succeeds or raises an
`HttpError`, `get_contacts` returns one of exactly three shapes — the
non-empty record list of the case-insensitively matching contacts, the exact
string "No contacts found matching that query.", or text beginning
"An error occurred: " — but a non-`HttpError` provider exception propagates
(see the counterexample). -/
theorem get_contacts_shapes (svc : PeopleSvc) (query : String) :
    (∀ all_contacts, svc.listConnections = Except.ok all_contacts →
      (foundOf all_contacts query ≠ [] →
        get_contacts svc query =
          Except.ok (GetContactsResult.contacts (foundOf all_contacts query))) ∧
      (foundOf all_contacts query = [] →
        get_contacts svc query =
          Except.ok (GetContactsResult.noneFound
            "No contacts found matching that query."))) ∧
    (∀ m, svc.listConnections = Except.error (PyErr.httpError m) →
      get_contacts svc query =
        Except.ok (GetContactsResult.errorText ("An error occurred: " ++ m))) := by
  constructor
  · intro all h
    have hg : get_contacts svc query =
        Except.ok (if (foundOf all query).isEmpty then
          GetContactsResult.noneFound "No contacts found matching that query."
        else GetContactsResult.contacts (foundOf all query)) := by
      unfold get_contacts
      rw [h]
    constructor
    · intro hne
      have hempty : (foundOf all query).isEmpty = false := by
        cases hfl : foundOf all query with
        | nil => exact absurd hfl hne
        | cons a t => rfl
      rw [hg, if_neg (by simp [hempty])]
    · intro he
      rw [hg, if_pos (by rw [he]; rfl)]
  · intro m h
    unfold get_contacts
    rw [h]

/-- Witness for the amended C10: the Jane Doe connection matches the query
"Jane" (non-empty record list), misses the query "Zz" (fixed no-match
string), and a provider `HttpError` becomes "An error occurred: ..." text. -/
theorem get_contacts_shapes_witness :
    get_contacts peopleJane "Jane" =
      Except.ok (GetContactsResult.contacts (foundOf janeConnections "Jane")) ∧
    get_contacts peopleJane "Zz" =
      Except.ok (GetContactsResult.noneFound
        "No contacts found matching that query.") ∧
    get_contacts peopleHttpFail "Jane" =
      Except.ok (GetContactsResult.errorText
        ("An error occurred: " ++ "429 Too Many Requests")) :=
  ⟨((get_contacts_shapes peopleJane "Jane").1 janeConnections rfl).1 (by decide),
   ((get_contacts_shapes peopleJane "Zz").1 janeConnections rfl).2 rfl,
   (get_contacts_shapes peopleHttpFail "Jane").2 "429 Too Many Requests" rfl⟩
